import Mathlib

/-!
Verification of the pose-detection photo-capture system.

Shallow embedding of the core algorithmic pieces:
* the pose-quality evaluator (`evaluatePoseQuality`, from usePoseDetection),
* the auto-capture gate (`handlePoseDetected`, from App),
* the system event loop (gate + countdown timer + capture handlers),
* the countdown timer (`countdownTick`, from CountdownTimer),
* the photo-quality scorer (`calculatePhotoQuality`, from usePhotoCapture),
* best-photo retrieval (`getBestPhotos`, from usePhotoCapture),
* the print-layout generator (`generateLayout`, from LayoutGenerator).

JavaScript numbers are modelled as exact rationals (`ℚ`) and timestamps as
natural-number milliseconds.
-/

namespace PoseCapture

/-! ### Pose data model (types/pose.ts, PoseNet keypoints) -/

/-- One PoseNet keypoint: named body part, pixel position, confidence score. -/
structure Keypoint where
  part : String
  posX : ℚ
  posY : ℚ
  score : ℚ
  deriving Repr, DecidableEq

/-- One pose sample: keypoint list plus overall score. -/
structure Pose where
  keypoints : List Keypoint
  score : ℚ
  deriving Repr, DecidableEq

/-- The lookup `keypoints.find(kp => kp.part === pointName)`. -/
def findPart (kps : List Keypoint) (name : String) : Option Keypoint :=
  kps.find? (fun kp => kp.part == name)

/-- The five required facial landmarks (`requiredPoints` in usePoseDetection,
`faceKeypoints` in App — the same list in both). -/
def requiredPoints : List String :=
  ["nose", "leftEye", "rightEye", "leftEar", "rightEar"]

/-- Facial landmarks present in the keypoint list with score strictly above 0.5
(the filter computed identically in usePoseDetection and in App). -/
def visibleFacePoints (kps : List Keypoint) : List String :=
  requiredPoints.filter (fun name =>
    match findPart kps name with
    | some kp => decide ((0.5 : ℚ) < kp.score)
    | none => false)

/-- Result of `evaluatePoseQuality`. -/
structure PoseQuality where
  isCorrect : Bool
  confidence : ℚ
  message : String
  deriving Repr, DecidableEq

/-- Embeds `evaluatePoseQuality` from usePoseDetection: counts visible facial
landmarks, then checks shoulder level, nose centering and confidence. -/
def evaluatePoseQuality (pose : Pose) : PoseQuality :=
  let keypoints := pose.keypoints
  let nose := findPart keypoints "nose"
  let leftShoulder := findPart keypoints "leftShoulder"
  let rightShoulder := findPart keypoints "rightShoulder"
  if 3 ≤ (visibleFacePoints keypoints).length then
    let confidence : ℚ := ((visibleFacePoints keypoints).length : ℚ) / (requiredPoints.length : ℚ)
    match leftShoulder, rightShoulder, nose with
    | some ls, some rs, some n =>
      let shoulderDiff := |ls.posY - rs.posY|
      let isLevel : Bool := decide (shoulderDiff < 50)
      let isCentered : Bool := decide (200 < n.posX) && decide (n.posX < 440)
      if isLevel && isCentered && decide ((0.7 : ℚ) < confidence) then
        ⟨true, confidence, "Perfect pose! Stay still..."⟩
      else if !isLevel then
        ⟨false, confidence, "Keep your shoulders level"⟩
      else if !isCentered then
        ⟨false, confidence, "Center yourself in the frame"⟩
      else
        ⟨false, confidence, "Almost there, stay still"⟩
    | _, _, _ => ⟨false, confidence, "Position yourself in the frame"⟩
  else
    ⟨false, 0, "Position yourself in the frame"⟩

/-! ### Auto-capture gate (App.handlePoseDetected) -/

/-- Embeds `isGoodPose` in App: at least 4 of the 5 facial landmarks visible. -/
def isGoodPose (pose : Pose) : Bool :=
  decide (4 ≤ (visibleFacePoints pose.keypoints).length)

/-- The flags read by `handlePoseDetected`: the auto-capture checkbox, the
video element, the capture-in-progress flag and the countdown flag. -/
structure GateFlags where
  autoCapture : Bool
  hasVideo : Bool
  isCapturing : Bool
  countdownActive : Bool
  deriving Repr, DecidableEq

/-- The three mutable refs driving the gate: `lastCaptureTime`,
`poseStableTime` and `wasCorrectPose`. -/
structure GateState where
  lastCaptureTime : Nat
  poseStableTime : Nat
  wasCorrectPose : Bool
  deriving Repr, DecidableEq

/-- Embeds `handlePoseDetected` (App, auto-capture part): guard on flags, 5000 ms
cooldown since `lastCaptureTime`, then the stability state machine.  Returns
the updated refs and whether `startCountdown()` was called (a trigger). -/
def handlePoseDetected (f : GateFlags) (g : GateState) (pose : Pose) (now : Nat) :
    GateState × Bool :=
  if !f.autoCapture || !f.hasVideo || f.isCapturing || f.countdownActive then
    (g, false)
  else if now - g.lastCaptureTime < 5000 then
    (g, false)
  else if isGoodPose pose then
    if !g.wasCorrectPose then
      ({ g with poseStableTime := now, wasCorrectPose := true }, false)
    else if 2000 < now - g.poseStableTime then
      ({ g with wasCorrectPose := false }, true)
    else
      (g, false)
  else
    ({ g with wasCorrectPose := false }, false)

/-- One pose sample together with the ambient flag values at its arrival. -/
structure Sample where
  pose : Pose
  now : Nat
  flags : GateFlags
  deriving Repr, DecidableEq

/-- A sample the gate ignores without touching its state: a failing flag
guard, or the 5000 ms cooldown (measured against `lastCaptureTime` `L`). -/
def sampleIgnored (L : Nat) (x : Sample) : Bool :=
  !x.flags.autoCapture || !x.flags.hasVideo || x.flags.isCapturing ||
    x.flags.countdownActive || decide (x.now - L < 5000)

/-- Run the gate over a sample sequence, collecting trigger times. -/
def runGate (g : GateState) : List Sample → GateState × List Nat
  | [] => (g, [])
  | x :: xs =>
    let r := handlePoseDetected x.flags g x.pose x.now
    let rest := runGate r.1 xs
    (rest.1, (if r.2 then [x.now] else []) ++ rest.2)

/-- Every sample of `mid` that the gate processes (is not ignored) shows a
good pose: the pose was continuously correct over `mid`. -/
def AllProcessedGood (L : Nat) (mid : List Sample) : Prop :=
  ∀ z ∈ mid, sampleIgnored L z = false → isGoodPose z.pose = true

/-- From a stabilizing state `g` (`wasCorrectPose = true`), the suffix `ys`
continues the correct-pose hold through `mid` without triggering and then
fires its single trigger at sample `y`, more than 2000 ms after the hold
began at `poseStableTime`; immediately afterwards the gate is back in its
non-stabilizing state. -/
def MidHoldFires (g : GateState) (t : Nat) (ys : List Sample) : Prop :=
  ∃ mid y rest, ys = mid ++ y :: rest ∧
    g.wasCorrectPose = true ∧
    AllProcessedGood g.lastCaptureTime mid ∧
    (runGate g mid).2 = [] ∧
    sampleIgnored g.lastCaptureTime y = false ∧
    isGoodPose y.pose = true ∧
    t = y.now ∧
    2000 < y.now - g.poseStableTime ∧
    (runGate g (mid ++ [y])).1.wasCorrectPose = false ∧
    (runGate g (mid ++ [y])).2 = [t]

/-- From a non-stabilizing state `g`, the suffix `ys` opens with the first
correct processed sample `x` (which starts the stability clock at `x.now`),
stays continuously correct through `mid` without triggering, and fires its
single trigger at sample `y` with `y.now - x.now > 2000`; immediately
afterwards the gate is back in its non-stabilizing state. -/
def JustifiedSuffix (g : GateState) (t : Nat) (ys : List Sample) : Prop :=
  ∃ x mid y rest, ys = x :: (mid ++ y :: rest) ∧
    g.wasCorrectPose = false ∧
    sampleIgnored g.lastCaptureTime x = false ∧
    isGoodPose x.pose = true ∧
    AllProcessedGood g.lastCaptureTime mid ∧
    sampleIgnored g.lastCaptureTime y = false ∧
    isGoodPose y.pose = true ∧
    t = y.now ∧
    2000 < y.now - x.now ∧
    (runGate g (x :: mid)).2 = [] ∧
    (runGate g (x :: (mid ++ [y]))).1.wasCorrectPose = false ∧
    (runGate g (x :: (mid ++ [y]))).2 = [t]

/-! ### System model: App state, countdown timer and capture handlers

The pose-sampling interval, the countdown interval, the manual-capture button
and the video-ready callback are modelled as discrete events processed
atomically in arrival order (the capture promise resolves synchronously, so
`isCapturing` is released within the same event that set it).  The fields
`clock` (time of the last processed event) and `countdownStart` (time the
countdown was activated) are bookkeeping used only to state the chronology
and tick-spacing hypotheses of the timed theorems. -/

/-- Whole-app state: gate refs, flags, countdown timer state, photo count. -/
structure SysState where
  gate : GateState
  autoCapture : Bool
  hasVideo : Bool
  isCapturing : Bool
  countdownActive : Bool
  count : Nat
  photos : Nat
  countdownStart : Nat
  clock : Nat
  deriving Repr, DecidableEq

/-- External events: a pose sample, a countdown-interval tick (carrying
whether the capture attempted on completion succeeds), a manual-capture
click (likewise), the video becoming ready, the auto-capture checkbox. -/
inductive Event where
  | pose (p : Pose) (now : Nat)
  | tick (now : Nat) (captureOk : Bool)
  | manual (now : Nat) (captureOk : Bool)
  | videoReady (now : Nat)
  | setAuto (now : Nat) (b : Bool)
  deriving Repr, DecidableEq

/-- Wall-clock time at which an event occurs. -/
def eventTime : Event → Nat
  | .pose _ now => now
  | .tick now _ => now
  | .manual now _ => now
  | .videoReady now => now
  | .setAuto now _ => now

/-- Embeds `handleCountdownComplete` (App): deactivate the countdown; if the video is
present, capture — on success add the photo and set `lastCaptureTime` to the
current time; the `isCapturing` flag is set and released within the event. -/
def handleCountdownComplete (s : SysState) (now : Nat) (ok : Bool) : SysState :=
  let s1 := { s with countdownActive := false, clock := now }
  if s1.hasVideo then
    if ok then
      { s1 with photos := s1.photos + 1,
                gate := { s1.gate with lastCaptureTime := now } }
    else s1
  else s1

/-- One `setInterval` tick of `CountdownTimer` as wired in App: when active,
a tick with counter at most 1 fires `onComplete` (which is
`handleCountdownComplete`) and resets the counter to the duration 3;
otherwise it decrements the counter.  Ticks while inactive do not exist
(the interval is cleared), hence are no-ops. -/
def handleCountdownTick (s : SysState) (now : Nat) (ok : Bool) : SysState :=
  if s.countdownActive then
    if s.count ≤ 1 then
      handleCountdownComplete { s with count := 3 } now ok
    else
      { s with count := s.count - 1, clock := now }
  else
    { s with clock := now }

/-- Embeds `handleManualCapture` (App): guarded by video presence and the capture
flag; on success adds a photo.  It does not touch any gate ref — in
particular it never updates `lastCaptureTime`. -/
def handleManualCapture (s : SysState) (now : Nat) (ok : Bool) : SysState :=
  if !s.hasVideo || s.isCapturing then
    { s with clock := now }
  else if ok then
    { s with photos := s.photos + 1, clock := now }
  else
    { s with clock := now }

/-- Process one event; the Bool records whether a trigger (countdown start)
was emitted.  A trigger sets `isCountdownActive`, which activates
`CountdownTimer`; its counter is 3 at that point (initial value, also
restored on every completion). -/
def sysStep (s : SysState) : Event → SysState × Bool
  | .pose p now =>
    let r := handlePoseDetected
      ⟨s.autoCapture, s.hasVideo, s.isCapturing, s.countdownActive⟩ s.gate p now
    if r.2 then
      ({ s with gate := r.1, countdownActive := true,
                countdownStart := now, clock := now }, true)
    else
      ({ s with gate := r.1, clock := now }, false)
  | .tick now ok => (handleCountdownTick s now ok, false)
  | .manual now ok => (handleManualCapture s now ok, false)
  | .videoReady now => ({ s with hasVideo := true, clock := now }, false)
  | .setAuto now b => ({ s with autoCapture := b, clock := now }, false)

/-- Run the system over an event trace, collecting trigger times. -/
def runSys (s : SysState) : List Event → SysState × List Nat
  | [] => (s, [])
  | e :: es =>
    let r := sysStep s e
    let rest := runSys r.1 es
    (rest.1, (if r.2 then [eventTime e] else []) ++ rest.2)

/-- App state on mount: no captures yet, auto-capture checked, no video,
countdown inactive with counter 3. -/
def initialSysState : SysState :=
  { gate := ⟨0, 0, false⟩
    autoCapture := true
    hasVideo := false
    isCapturing := false
    countdownActive := false
    count := 3
    photos := 0
    countdownStart := 0
    clock := 0 }

/-- An app state mid-countdown: video present, countdown active, counter 1
(about to complete on the next tick). -/
def readyCountdownState : SysState :=
  { initialSysState with hasVideo := true, countdownActive := true, count := 1 }

/-- Well-timed trace: events arrive in chronological order, and while the
countdown is active the `setInterval(1000)` ticks are at least 1000 ms
apart, i.e. the tick that finds counter value `c` comes at least
`1000 * (4 - c)` ms after activation. -/
def validB : SysState → List Event → Bool
  | _, [] => true
  | s, e :: es =>
    decide (s.clock ≤ eventTime e) &&
    (match e with
     | .tick now _ =>
       !s.countdownActive || decide (s.countdownStart + 1000 * (4 - s.count) ≤ now)
     | _ => true) &&
    validB (sysStep s e).1 es

/-- State invariant of the event loop: while the countdown is active its
counter is between 1 and 3 and the gate is not stabilizing (the trigger that
started the countdown reset `wasCorrectPose`); while inactive the counter
sits at its reset value 3; and `poseStableTime` never exceeds the time of
the last processed event. -/
def sysInv (s : SysState) : Prop :=
  (s.countdownActive = true → 1 ≤ s.count ∧ s.count ≤ 3 ∧
    s.gate.wasCorrectPose = false) ∧
  (s.countdownActive = false → s.count = 3) ∧
  s.gate.poseStableTime ≤ s.clock

/-- Earliest time at which the system can possibly emit its next trigger:
during a countdown, completion takes until `countdownStart + 3000` and
re-stabilization more than 2000 ms beyond that; while stabilizing, more than
2000 ms past `poseStableTime`; otherwise more than 2000 ms past the current
clock. -/
def lowBound (s : SysState) : Nat :=
  if s.countdownActive then s.countdownStart + 5001
  else if s.gate.wasCorrectPose then s.gate.poseStableTime + 2001
  else s.clock + 2001

/-! ### Countdown timer in isolation (CountdownTimer.tsx) -/

/-- The `CountdownTimer` component state: the `isActive` prop and the `count`
state (initially the duration). -/
structure TimerState where
  isActive : Bool
  count : Nat
  deriving Repr, DecidableEq

/-- One interval tick: when active, a counter value at most 1 fires
`onComplete` and resets the counter to the duration; otherwise the counter
decrements.  No interval exists while inactive. -/
def countdownTick (duration : Nat) (s : TimerState) : TimerState × Bool :=
  if !s.isActive then (s, false)
  else if s.count ≤ 1 then ({ s with count := duration }, true)
  else ({ s with count := s.count - 1 }, false)

/-- Deactivation (the `isActive` prop turning false): the effect cleanup
clears the pending interval and the effect resets the counter. -/
def countdownDeactivate (duration : Nat) (_ : TimerState) : TimerState :=
  { isActive := false, count := duration }

/-- A tick as wired in App with duration 3: `onComplete` is
`handleCountdownComplete`, which sets `isCountdownActive` to false, so a
completion deactivates the timer. -/
def appTimerTick (s : TimerState) : TimerState × Bool :=
  let r := countdownTick 3 s
  (if r.2 then countdownDeactivate 3 r.1 else r.1, r.2)

/-- State and cumulative completion count after `k` ticks following an
activation (counter starts at 3: its initial value, also restored by every
deactivation and completion). -/
def timerEpisode : Nat → TimerState × Nat
  | 0 => ({ isActive := true, count := 3 }, 0)
  | k + 1 =>
    let p := timerEpisode k
    let r := appTimerTick p.1
    (r.1, p.2 + (if r.2 then 1 else 0))

/-! ### Photo quality scorer (usePhotoCapture.calculatePhotoQuality) -/

/-- One RGBA pixel of the captured frame (component values 0–255). -/
structure Pixel where
  r : Nat
  g : Nat
  b : Nat
  a : Nat
  deriving Repr, DecidableEq

/-- Brightness `(r + g + b) / 3` of one pixel. -/
def pixelBrightness (p : Pixel) : ℚ :=
  ((p.r : ℚ) + (p.g : ℚ) + (p.b : ℚ)) / 3

/-- Accumulated `totalBrightness` over the buffer. -/
def totalBrightness (ps : List Pixel) : ℚ :=
  (ps.map pixelBrightness).sum

/-- Accumulated `edgeStrength`: sum of absolute brightness differences of
consecutive pixels in raw buffer order (the linear scan of the source, which
crosses row boundaries). -/
def edgeStrength : List Pixel → ℚ
  | [] => 0
  | [_] => 0
  | p :: q :: rest => |pixelBrightness p - pixelBrightness q| + edgeStrength (q :: rest)

/-- The mean `avgBrightness = totalBrightness / pixelCount`. -/
def avgBrightness (ps : List Pixel) : ℚ :=
  totalBrightness ps / (ps.length : ℚ)

/-- The quotient `normalizedEdgeStrength = edgeStrength / pixelCount`. -/
def normalizedEdgeStrength (ps : List Pixel) : ℚ :=
  edgeStrength ps / (ps.length : ℚ)

/-- The score `brightnessScore = 1 - |avgBrightness - 128| / 128`. -/
def brightnessScore (ps : List Pixel) : ℚ :=
  1 - |avgBrightness ps - 128| / 128

/-- The score `sharpnessScore = min(normalizedEdgeStrength / 20, 1)`. -/
def sharpnessScore (ps : List Pixel) : ℚ :=
  min (normalizedEdgeStrength ps / 20) 1

/-- The score `qualityScore = (brightnessScore + sharpnessScore) / 2`. -/
def qualityScore (ps : List Pixel) : ℚ :=
  (brightnessScore ps + sharpnessScore ps) / 2

/-- Embeds `calculatePhotoQuality`: it reads the frame via
`ctx.getImageData(0, 0, canvas.width, canvas.height)` — which, per the canvas
specification, throws `IndexSizeError` when either dimension is zero — and
otherwise computes the quality score of the pixel buffer. -/
def calculatePhotoQuality (width height : Nat) (ps : List Pixel) : Except String ℚ :=
  if width = 0 ∨ height = 0 then
    Except.error "IndexSizeError: the source width or height is zero"
  else
    Except.ok (qualityScore ps)

/-! ### Photo collection (usePhotoCapture) -/

/-- A captured photo as far as ranking is concerned. -/
structure CapturedPhoto where
  id : Nat
  timestamp : Nat
  qualityScore : ℚ
  deriving Repr, DecidableEq

/-- The JavaScript comparator `(a, b) => b.qualityScore - a.qualityScore`
orders `a` before `b` when the result is negative, i.e. sorts by score
descending; `Array.prototype.sort` is stable, so the sort is
`List.mergeSort` with this relation. -/
def scoreDescLE (a b : CapturedPhoto) : Bool :=
  decide (b.qualityScore ≤ a.qualityScore)

/-- Embeds `getBestPhotos(count)`: stable-sort a copy by quality descending and take
the first `count`. -/
def getBestPhotos (photos : List CapturedPhoto) (count : Nat) : List CapturedPhoto :=
  (photos.mergeSort scoreDescLE).take count

/-! ### Layout generator (LayoutGenerator.generateLayout) -/

/-- A4 page width at 300 DPI. -/
def pageWidth : Nat := 2480

/-- A4 page height at 300 DPI. -/
def pageHeight : Nat := 3508

/-- Passport-photo slot width (35 mm at 300 DPI). -/
def photoWidth : Nat := 413

/-- Passport-photo slot height (45 mm at 300 DPI). -/
def photoHeight : Nat := 531

/-- Margin between slots. -/
def layoutMargin : Nat := 60

/-- Grid columns `cols = Math.floor(pageWidth / (photoWidth + 60))`. -/
def layoutCols : Nat := pageWidth / (photoWidth + 60)

/-- Grid rows `rows = Math.floor(pageHeight / (photoHeight + 60))`. -/
def layoutRows : Nat := pageHeight / (photoHeight + 60)

/-- Capacity `totalSlots = cols * rows`. -/
def totalSlots : Nat := layoutCols * layoutRows

/-- Offset `startX`: centers the slot block horizontally (JavaScript division, may be
fractional). -/
def startX : ℚ :=
  ((pageWidth : ℚ) - ((layoutCols : ℚ) * (photoWidth : ℚ) +
    ((layoutCols : ℚ) - 1) * (layoutMargin : ℚ))) / 2

/-- Offset `startY`: centers the slot block vertically. -/
def startY : ℚ :=
  ((pageHeight : ℚ) - ((layoutRows : ℚ) * (photoHeight : ℚ) +
    ((layoutRows : ℚ) - 1) * (layoutMargin : ℚ))) / 2

/-- x-coordinate of the slot of the photo at index `i`
(`col = index % cols`). -/
def slotX (i : Nat) : ℚ :=
  startX + ((i % layoutCols : Nat) : ℚ) * ((photoWidth : ℚ) + (layoutMargin : ℚ))

/-- y-coordinate of the slot of the photo at index `i`
(`row = Math.floor(index / cols)`). -/
def slotY (i : Nat) : ℚ :=
  startY + ((i / layoutCols : Nat) : ℚ) * ((photoHeight : ℚ) + (layoutMargin : ℚ))

/-- Embeds `generateLayout` reduced to its draw commands: with no photos it returns
early drawing nothing; otherwise it draws `photos.slice(0, totalSlots)` at
row-major slot positions. -/
def generateLayout (photos : List CapturedPhoto) :
    List (CapturedPhoto × ℚ × ℚ) :=
  if photos.length = 0 then []
  else (photos.take totalSlots).enum.map (fun ip => (ip.2, slotX ip.1, slotY ip.1))

/-! ### Concrete example data -/

/-- A facial keypoint with high confidence at a centered position. -/
def facePoint (name : String) : Keypoint :=
  { part := name, posX := 320, posY := 100, score := 9 / 10 }

/-- A pose with all five facial landmarks clearly visible and no shoulder
keypoints at all. -/
def fullFacePose : Pose :=
  { keypoints := requiredPoints.map facePoint, score := 9 / 10 }

/-- Flags with auto-capture on, video ready, nothing in progress. -/
def gateFlagsOn : GateFlags :=
  { autoCapture := true, hasVideo := true, isCapturing := false, countdownActive := false }

/-- Two good samples 2001 ms apart: the second one triggers. -/
def gateSampleTrace : List Sample :=
  [⟨fullFacePose, 5000, gateFlagsOn⟩, ⟨fullFacePose, 7001, gateFlagsOn⟩]

/-- A well-timed trace producing two auto-capture triggers. -/
def autoTwoTriggerTrace : List Event :=
  [.videoReady 0, .pose fullFacePose 5000, .pose fullFacePose 7001,
   .tick 8001 true, .tick 9001 true, .tick 10001 true,
   .pose fullFacePose 15001, .pose fullFacePose 17002]

/-- A successful manual capture at 6000 ms followed by good pose samples at
6100 ms and 8200 ms. -/
def manualCooldownTrace : List Event :=
  [.videoReady 0, .manual 6000 true, .pose fullFacePose 6100, .pose fullFacePose 8200]

/-- Photo collection with quality scores 0.2, 0.9, 0.5 in insertion order. -/
def examplePhotos : List CapturedPhoto :=
  [⟨1, 1000, 2 / 10⟩, ⟨2, 2000, 9 / 10⟩, ⟨3, 3000, 5 / 10⟩]

/-! ## Theorems -/

set_option maxRecDepth 20000

/-- Claim C4: a pose with fewer than 3 of the five facial landmarks visible
(score above 0.5) evaluates to an incorrect verdict with confidence 0 and
message "Position yourself in the frame". -/
theorem evaluatePoseQuality_few_landmarks (pose : Pose)
    (h : (visibleFacePoints pose.keypoints).length < 3) :
    evaluatePoseQuality pose =
      ⟨false, 0, "Position yourself in the frame"⟩ := by
  unfold evaluatePoseQuality
  rw [if_neg (by omega)]

/-- Witness for C4: the empty pose has no visible landmarks. -/
theorem evaluatePoseQuality_few_landmarks_witness :
    (visibleFacePoints (Pose.mk [] 0).keypoints).length < 3 ∧
    evaluatePoseQuality ⟨[], 0⟩ =
      ⟨false, 0, "Position yourself in the frame"⟩ :=
  ⟨by decide, evaluatePoseQuality_few_landmarks ⟨[], 0⟩ (by decide)⟩

/-- Claim C10: when the nose, the left shoulder or the right shoulder is
absent from the keypoint list, the verdict is incorrect and the message
stays "Position yourself in the frame", no matter how many facial landmarks
are visible. -/
theorem evaluatePoseQuality_missing_keypoint (pose : Pose)
    (h : findPart pose.keypoints "nose" = none ∨
         findPart pose.keypoints "leftShoulder" = none ∨
         findPart pose.keypoints "rightShoulder" = none) :
    (evaluatePoseQuality pose).isCorrect = false ∧
    (evaluatePoseQuality pose).message = "Position yourself in the frame" := by
  rcases hls : findPart pose.keypoints "leftShoulder" with _ | ls <;>
    rcases hrs : findPart pose.keypoints "rightShoulder" with _ | rs <;>
      rcases hn : findPart pose.keypoints "nose" with _ | n <;>
        simp_all [evaluatePoseQuality] <;>
          split <;> simp_all

/-- Witness for C10: a pose with all five facial landmarks visible
(confidence 1) but no shoulder keypoints is still rejected with the generic
message. -/
theorem evaluatePoseQuality_missing_keypoint_witness :
    findPart fullFacePose.keypoints "leftShoulder" = none ∧
    (evaluatePoseQuality fullFacePose).isCorrect = false ∧
    (evaluatePoseQuality fullFacePose).message = "Position yourself in the frame" ∧
    (evaluatePoseQuality fullFacePose).confidence = 1 :=
  ⟨by with_unfolding_all rfl,
   (evaluatePoseQuality_missing_keypoint fullFacePose
      (Or.inr (Or.inl (by with_unfolding_all rfl)))).1,
   (evaluatePoseQuality_missing_keypoint fullFacePose
      (Or.inr (Or.inl (by with_unfolding_all rfl)))).2,
   by with_unfolding_all rfl⟩

theorem timerEpisode_from_three (j : Nat) :
    timerEpisode (j + 3) = (⟨false, 3⟩, 1) := by
  induction j with
  | zero => rfl
  | succ k ih =>
    show timerEpisode ((k + 3) + 1) = _
    rw [timerEpisode, ih]
    rfl

/-- Claim C8: from an activation (counter at its initial value 3), the
completion callback fires exactly once per activation, on the 3rd tick
(ticks 1 and 2 do not complete, every later tick finds the timer already
deactivated by the completion handler); deactivating after fewer than 3
ticks resets the counter to the duration 3 with zero completions; and a
deactivated timer has no pending tick (ticks are no-ops). -/
theorem countdownTimer_completes_once (k j : Nat) (s : TimerState) :
    (timerEpisode k).2 = (if 3 ≤ k then 1 else 0) ∧
    (appTimerTick (timerEpisode 2).1).2 = true ∧
    countdownDeactivate 3 (timerEpisode (min j 2)).1 = ⟨false, 3⟩ ∧
    (timerEpisode (min j 2)).2 = 0 ∧
    countdownTick 3 (countdownDeactivate 3 s) = (countdownDeactivate 3 s, false) := by
  refine ⟨?_, by decide, ?_, ?_, by simp [countdownTick, countdownDeactivate]⟩
  · match k with
    | 0 => decide
    | 1 => decide
    | 2 => decide
    | m + 3 => rw [timerEpisode_from_three]; simp
  · rcases j with _ | _ | m
    · decide
    · decide
    · rw [show min (m + 2) 2 = 2 by omega]
      decide
  · rcases j with _ | _ | m
    · decide
    · decide
    · rw [show min (m + 2) 2 = 2 by omega]
      decide

theorem totalBrightness_const (ps : List Pixel) (c : ℚ)
    (h : ∀ p ∈ ps, pixelBrightness p = c) :
    totalBrightness ps = c * ps.length := by
  induction ps with
  | nil => simp [totalBrightness]
  | cons p t ih =>
    have hp := h p (List.mem_cons_self p t)
    have ht := ih (fun x hx => h x (List.mem_cons_of_mem _ hx))
    simp only [totalBrightness, List.map_cons, List.sum_cons] at *
    rw [hp, ht, List.length_cons]
    push_cast
    ring

theorem edgeStrength_const (ps : List Pixel) (c : ℚ)
    (h : ∀ p ∈ ps, pixelBrightness p = c) :
    edgeStrength ps = 0 := by
  induction ps with
  | nil => simp [edgeStrength]
  | cons p t ih =>
    cases t with
    | nil => simp [edgeStrength]
    | cons q r =>
      have hp := h p (List.mem_cons_self _ _)
      have hq := h q (List.mem_cons_of_mem _ (List.mem_cons_self _ _))
      rw [edgeStrength, hp, hq, sub_self, abs_zero, zero_add]
      exact ih (fun x hx => h x (List.mem_cons_of_mem _ hx))

theorem edgeStrength_nonneg (ps : List Pixel) : 0 ≤ edgeStrength ps := by
  induction ps with
  | nil => simp [edgeStrength]
  | cons p t ih =>
    cases t with
    | nil => simp [edgeStrength]
    | cons q r =>
      rw [edgeStrength]
      have := abs_nonneg (pixelBrightness p - pixelBrightness q)
      have := ih
      positivity

theorem pixelBrightness_nonneg (p : Pixel) : 0 ≤ pixelBrightness p := by
  unfold pixelBrightness
  positivity

theorem pixelBrightness_le (p : Pixel) (hr : p.r ≤ 255) (hg : p.g ≤ 255)
    (hb : p.b ≤ 255) : pixelBrightness p ≤ 255 := by
  unfold pixelBrightness
  rw [div_le_iff₀ (by norm_num)]
  have hr' : (p.r : ℚ) ≤ 255 := by exact_mod_cast hr
  have hg' : (p.g : ℚ) ≤ 255 := by exact_mod_cast hg
  have hb' : (p.b : ℚ) ≤ 255 := by exact_mod_cast hb
  linarith

theorem totalBrightness_nonneg (ps : List Pixel) : 0 ≤ totalBrightness ps := by
  induction ps with
  | nil => simp [totalBrightness]
  | cons p t ih =>
    simp only [totalBrightness, List.map_cons, List.sum_cons] at *
    have := pixelBrightness_nonneg p
    linarith

theorem totalBrightness_le (ps : List Pixel)
    (h : ∀ p ∈ ps, p.r ≤ 255 ∧ p.g ≤ 255 ∧ p.b ≤ 255) :
    totalBrightness ps ≤ 255 * ps.length := by
  induction ps with
  | nil => simp [totalBrightness]
  | cons p t ih =>
    obtain ⟨hr, hg, hb⟩ := h p (List.mem_cons_self _ _)
    have ht := ih (fun x hx => h x (List.mem_cons_of_mem _ hx))
    have hp := pixelBrightness_le p hr hg hb
    simp only [totalBrightness, List.map_cons, List.sum_cons, List.length_cons] at *
    push_cast
    linarith

theorem avgBrightness_mem (ps : List Pixel)
    (h : ∀ p ∈ ps, p.r ≤ 255 ∧ p.g ≤ 255 ∧ p.b ≤ 255) :
    0 ≤ avgBrightness ps ∧ avgBrightness ps ≤ 255 := by
  unfold avgBrightness
  rcases List.eq_nil_or_concat ps with rfl | _
  · simp
  · have hlen : 0 < (ps.length : ℚ) := by
      have : ps ≠ [] := by rintro rfl; simp_all
      have := List.length_pos.mpr this
      exact_mod_cast this
    constructor
    · exact div_nonneg (totalBrightness_nonneg ps) (le_of_lt hlen)
    · rw [div_le_iff₀ hlen]
      have := totalBrightness_le ps h
      linarith

theorem brightnessScore_mem (ps : List Pixel)
    (h : ∀ p ∈ ps, p.r ≤ 255 ∧ p.g ≤ 255 ∧ p.b ≤ 255) :
    0 ≤ brightnessScore ps ∧ brightnessScore ps ≤ 1 := by
  obtain ⟨h0, h255⟩ := avgBrightness_mem ps h
  unfold brightnessScore
  have habs : |avgBrightness ps - 128| ≤ 128 := abs_le.mpr ⟨by linarith, by linarith⟩
  have habs0 : 0 ≤ |avgBrightness ps - 128| := abs_nonneg _
  constructor
  · have : |avgBrightness ps - 128| / 128 ≤ 1 := by
      rw [div_le_one (by norm_num)]; exact habs
    linarith
  · have : 0 ≤ |avgBrightness ps - 128| / 128 := by positivity
    linarith

theorem sharpnessScore_mem (ps : List Pixel) :
    0 ≤ sharpnessScore ps ∧ sharpnessScore ps ≤ 1 := by
  unfold sharpnessScore
  constructor
  · apply le_min _ (by norm_num)
    unfold normalizedEdgeStrength
    have := edgeStrength_nonneg ps
    positivity
  · exact min_le_right _ _

/-- Claim C5: a non-empty uniformly mid-gray (128,128,128) frame scores
brightness 1, sharpness 0 and quality 1/2; a non-empty all-black frame
scores brightness 0. -/
theorem photoQuality_uniform_frames (ps : List Pixel) (hne : ps ≠ []) :
    ((∀ p ∈ ps, p.r = 128 ∧ p.g = 128 ∧ p.b = 128) →
      brightnessScore ps = 1 ∧ sharpnessScore ps = 0 ∧ qualityScore ps = 1 / 2) ∧
    ((∀ p ∈ ps, p.r = 0 ∧ p.g = 0 ∧ p.b = 0) → brightnessScore ps = 0) := by
  have hlen : (ps.length : ℚ) ≠ 0 := by
    have := List.length_pos.mpr hne
    positivity
  constructor
  · intro h
    have hpix : ∀ p ∈ ps, pixelBrightness p = 128 := by
      intro p hp
      obtain ⟨hr, hg, hb⟩ := h p hp
      simp [pixelBrightness, hr, hg, hb]
      norm_num
    have htot : totalBrightness ps = 128 * ps.length := totalBrightness_const ps 128 hpix
    have hedge : edgeStrength ps = 0 := edgeStrength_const ps 128 hpix
    have havg : avgBrightness ps = 128 := by
      rw [avgBrightness, htot, mul_div_assoc, div_self hlen, mul_one]
    have hb : brightnessScore ps = 1 := by
      rw [brightnessScore, havg]
      norm_num
    have hs : sharpnessScore ps = 0 := by
      rw [sharpnessScore, normalizedEdgeStrength, hedge]
      norm_num
    refine ⟨hb, hs, ?_⟩
    rw [qualityScore, hb, hs]
    norm_num
  · intro h
    have hpix : ∀ p ∈ ps, pixelBrightness p = 0 := by
      intro p hp
      obtain ⟨hr, hg, hb⟩ := h p hp
      simp [pixelBrightness, hr, hg, hb]
    have htot : totalBrightness ps = 0 := by
      have := totalBrightness_const ps 0 hpix
      simpa using this
    have havg : avgBrightness ps = 0 := by
      rw [avgBrightness, htot, zero_div]
    rw [brightnessScore, havg]
    norm_num

/-- Witness for C5: a two-pixel mid-gray frame and a one-pixel black frame. -/
theorem photoQuality_uniform_frames_witness :
    brightnessScore [⟨128, 128, 128, 255⟩, ⟨128, 128, 128, 255⟩] = 1 ∧
    sharpnessScore [⟨128, 128, 128, 255⟩, ⟨128, 128, 128, 255⟩] = 0 ∧
    qualityScore [⟨128, 128, 128, 255⟩, ⟨128, 128, 128, 255⟩] = 1 / 2 ∧
    brightnessScore [⟨0, 0, 0, 255⟩] = 0 := by
  have h1 := (photoQuality_uniform_frames
    [⟨128, 128, 128, 255⟩, ⟨128, 128, 128, 255⟩] (by simp)).1 (by simp)
  have h2 := (photoQuality_uniform_frames [⟨0, 0, 0, 255⟩] (by simp)).2 (by simp)
  exact ⟨h1.1, h1.2.1, h1.2.2, h2⟩

/-- Claim C6: the quality scorer is total with a well-defined score in
`[0, 1]` for every pixel buffer of byte-valued components, and a
zero-dimension frame fails fast with the descriptive platform error
(`getImageData` throws `IndexSizeError`) instead of computing anything. -/
theorem calculatePhotoQuality_total (width height : Nat) (ps : List Pixel) :
    ((width = 0 ∨ height = 0) → calculatePhotoQuality width height ps =
        Except.error "IndexSizeError: the source width or height is zero") ∧
    (width ≠ 0 → height ≠ 0 →
        calculatePhotoQuality width height ps = Except.ok (qualityScore ps)) ∧
    ((∀ p ∈ ps, p.r ≤ 255 ∧ p.g ≤ 255 ∧ p.b ≤ 255) →
        0 ≤ qualityScore ps ∧ qualityScore ps ≤ 1) := by
  refine ⟨fun h => ?_, fun hw hh => ?_, fun h => ?_⟩
  · rw [calculatePhotoQuality, if_pos h]
  · rw [calculatePhotoQuality, if_neg (by tauto)]
  · obtain ⟨hb0, hb1⟩ := brightnessScore_mem ps h
    obtain ⟨hs0, hs1⟩ := sharpnessScore_mem ps
    rw [qualityScore]
    constructor <;> linarith

/-- Witness for C6: a 1-by-1 buffer succeeds with a score in range; a
zero-width call errors. -/
theorem calculatePhotoQuality_total_witness :
    calculatePhotoQuality 1 1 [⟨10, 20, 30, 255⟩] =
      Except.ok (qualityScore [⟨10, 20, 30, 255⟩]) ∧
    calculatePhotoQuality 0 1 [] =
      Except.error "IndexSizeError: the source width or height is zero" ∧
    0 ≤ qualityScore [⟨10, 20, 30, 255⟩] ∧ qualityScore [⟨10, 20, 30, 255⟩] ≤ 1 := by
  have h1 := (calculatePhotoQuality_total 1 1 [⟨10, 20, 30, 255⟩]).2.1
    (by decide) (by decide)
  have h2 := (calculatePhotoQuality_total 0 1 []).1 (Or.inl rfl)
  have h3 := (calculatePhotoQuality_total 1 1 [⟨10, 20, 30, 255⟩]).2.2 (by simp)
  exact ⟨h1, h2, h3.1, h3.2⟩

theorem getElem?_take_eq_ite {α : Type} (l : List α) (n i : Nat) :
    (l.take n)[i]? = if i < n then l[i]? else none := by
  split
  · exact List.getElem?_take_of_lt (by assumption)
  · rw [List.getElem?_eq_none]
    simp only [List.length_take]
    omega

/-- Claim C9: the layout generator computes `cols = floor(2480 / (413+60)) = 5`,
`rows = floor(3508 / (531+60)) = 5`, `capacity = 25`, and draws exactly the
first `min(photos, capacity)` photos at row-major slot positions; indices
beyond the supplied photos (or beyond capacity) draw nothing, with no error
in either direction. -/
theorem generateLayout_grid (photos : List CapturedPhoto) (i : Nat) :
    layoutCols = pageWidth / (photoWidth + layoutMargin) ∧
    layoutRows = pageHeight / (photoHeight + layoutMargin) ∧
    totalSlots = layoutCols * layoutRows ∧
    layoutCols = 5 ∧ layoutRows = 5 ∧ totalSlots = 25 ∧
    (generateLayout photos).length = min photos.length totalSlots ∧
    (generateLayout photos)[i]? =
      (if i < totalSlots then photos[i]?.map (fun p => (p, slotX i, slotY i))
       else none) := by
  refine ⟨rfl, rfl, rfl, by decide, by decide, by decide, ?_, ?_⟩
  · rw [generateLayout]
    split
    · simp_all [List.length_eq_zero]
    · simp [List.length_take, Nat.min_comm]
  · rw [generateLayout]
    split
    · have h0 : photos = [] := by simp_all [List.length_eq_zero]
      subst h0
      simp
    · rw [List.getElem?_map, List.getElem?_enum, getElem?_take_eq_ite]
      split
      · simp [Option.map_map]
        rfl
      · simp

theorem scoreDescLE_trans (a b c : CapturedPhoto) :
    scoreDescLE a b → scoreDescLE b c → scoreDescLE a c := by
  simp only [scoreDescLE, decide_eq_true_eq]
  exact fun h1 h2 => le_trans h2 h1

theorem scoreDescLE_total (a b : CapturedPhoto) :
    scoreDescLE a b || scoreDescLE b a := by
  simp only [scoreDescLE, Bool.or_eq_true, decide_eq_true_eq]
  exact le_total b.qualityScore a.qualityScore

/-- Claim C7: `getBestPhotos(n)` returns `min n |photos|` photos sorted by
quality descending; the underlying sort is a permutation of the collection
and is stable (photos of any fixed score keep their insertion order); on the
score sequence 0.2, 0.9, 0.5 with `n = 2` it returns the 0.9 photo then the
0.5 photo. -/
theorem getBestPhotos_spec (photos : List CapturedPhoto) (n : Nat) :
    (getBestPhotos photos n).length = min n photos.length ∧
    List.Pairwise (fun a b => b.qualityScore ≤ a.qualityScore) (getBestPhotos photos n) ∧
    (photos.mergeSort scoreDescLE).Perm photos ∧
    (∀ q : ℚ, (photos.mergeSort scoreDescLE).filter (fun p => p.qualityScore == q) =
        photos.filter (fun p => p.qualityScore == q)) ∧
    getBestPhotos examplePhotos 2 = [⟨2, 2000, 9 / 10⟩, ⟨3, 3000, 5 / 10⟩] := by
  refine ⟨?_, ?_, List.mergeSort_perm photos scoreDescLE, ?_, by with_unfolding_all rfl⟩
  · rw [getBestPhotos, List.length_take, List.length_mergeSort]
  · have hs := List.sorted_mergeSort scoreDescLE_trans scoreDescLE_total photos
    have ht : List.Sublist (getBestPhotos photos n) (photos.mergeSort scoreDescLE) :=
      List.take_sublist n _
    exact (hs.sublist ht).imp (fun h => by
      simpa [scoreDescLE, decide_eq_true_eq] using h)
  · intro q
    have hsub : List.Sublist (photos.filter (fun p => p.qualityScore == q)) photos :=
      List.filter_sublist photos
    have hpw : (photos.filter (fun p => p.qualityScore == q)).Pairwise
        (fun a b => scoreDescLE a b = true) := by
      apply List.pairwise_of_forall_mem_list
      intro a ha b hb
      have ha' : a.qualityScore = q := by
        have := (List.mem_filter.mp ha).2
        simpa using this
      have hb' : b.qualityScore = q := by
        have := (List.mem_filter.mp hb).2
        simpa using this
      simp [scoreDescLE, ha', hb']
    have h1 : List.Sublist (photos.filter (fun p => p.qualityScore == q))
        (photos.mergeSort scoreDescLE) :=
      List.sublist_mergeSort scoreDescLE_trans scoreDescLE_total hpw hsub
    have h2 : List.Sublist (photos.filter (fun p => p.qualityScore == q))
        ((photos.mergeSort scoreDescLE).filter (fun p => p.qualityScore == q)) := by
      have h3 := h1.filter (fun p => p.qualityScore == q)
      rwa [List.filter_filter, show
        (fun p : CapturedPhoto => (p.qualityScore == q) && (p.qualityScore == q)) =
          (fun p : CapturedPhoto => p.qualityScore == q) from
        funext (fun p => Bool.and_self _)] at h3
    have hlen : ((photos.mergeSort scoreDescLE).filter
        (fun p => p.qualityScore == q)).length =
        (photos.filter (fun p => p.qualityScore == q)).length :=
      ((List.mergeSort_perm photos scoreDescLE).filter _).length_eq
    exact (h2.eq_of_length hlen.symm).symm

/-- Claim C3 as stated is false on the code: `handleManualCapture` never
updates `lastCaptureTime`, so a successful manual capture starts no cooldown.
Concretely: from the initial state, after a successful manual capture
completing at 6000 ms (photo count becomes 1), the good pose sample at
6100 ms — only 100 ms after the capture — is processed, changing the gate
state (`wasCorrectPose` flips from false to true), and the sample at
8200 ms — 2200 ms after the capture — emits a trigger. -/
theorem manualCapture_no_cooldown_counterexample :
    (runSys initialSysState (List.take 2 manualCooldownTrace)).1.photos = 1 ∧
    (runSys initialSysState (List.take 2 manualCooldownTrace)).1.gate.wasCorrectPose
      = false ∧
    (runSys initialSysState (List.take 3 manualCooldownTrace)).1.gate.wasCorrectPose
      = true ∧
    (runSys initialSysState manualCooldownTrace).2 = [8200] ∧
    6100 - 6000 < 5000 ∧ 8200 - 6000 < 5000 :=
  ⟨by with_unfolding_all rfl, by with_unfolding_all rfl,
   by with_unfolding_all rfl, by with_unfolding_all rfl, by decide, by decide⟩

/-- Claim C3 (amended): the 5-second cooldown is measured from the last
successful countdown-initiated capture only.  Any pose sample arriving less
than 5000 ms after `lastCaptureTime` leaves the gate state unchanged and
emits no trigger; a completing countdown tick with the video present and a
successful capture sets `lastCaptureTime` to the completion time; a manual
capture — successful or not — never touches the gate state, so it starts no
cooldown. -/
theorem cooldown_from_auto_capture_only (f : GateFlags) (g : GateState)
    (p : Pose) (now : Nat) (s : SysState) (ok : Bool) :
    (now - g.lastCaptureTime < 5000 → handlePoseDetected f g p now = (g, false)) ∧
    (sysStep s (.manual now ok)).1.gate = s.gate ∧
    (s.countdownActive = true → s.count ≤ 1 → s.hasVideo = true →
      (sysStep s (.tick now true)).1.gate.lastCaptureTime = now) := by
  refine ⟨fun h => ?_, ?_, fun hc hcount hv => ?_⟩
  · simp [handlePoseDetected, h]
  · simp only [sysStep, handleManualCapture]
    split
    · rfl
    · split <;> rfl
  · simp [sysStep, handleCountdownTick, hc, hcount, handleCountdownComplete, hv]

/-- Witness for the amended C3: a sample 100 ms after a capture is dropped
with the state untouched; a successful completion at 9000 ms sets the
cooldown reference to 9000; a manual capture leaves the gate alone. -/
theorem cooldown_from_auto_capture_only_witness :
    handlePoseDetected gateFlagsOn ⟨6000, 0, false⟩ fullFacePose 6100 =
      (⟨6000, 0, false⟩, false) ∧
    (sysStep (runSys initialSysState (List.take 1 manualCooldownTrace)).1
      (.manual 6000 true)).1.gate =
      (runSys initialSysState (List.take 1 manualCooldownTrace)).1.gate ∧
    (sysStep readyCountdownState (.tick 9000 true)).1.gate.lastCaptureTime = 9000 :=
  ⟨(cooldown_from_auto_capture_only gateFlagsOn ⟨6000, 0, false⟩ fullFacePose 6100
      initialSysState true).1 (by decide),
   (cooldown_from_auto_capture_only gateFlagsOn ⟨6000, 0, false⟩ fullFacePose 6000
      (runSys initialSysState (List.take 1 manualCooldownTrace)).1 true).2.1,
   (cooldown_from_auto_capture_only gateFlagsOn ⟨6000, 0, false⟩ fullFacePose 9000
      readyCountdownState true).2.2 rfl (by decide) rfl⟩

theorem hpd_guard (f : GateFlags) (g : GateState) (pose : Pose) (now : Nat)
    (h : (!f.autoCapture || !f.hasVideo || f.isCapturing || f.countdownActive) = true) :
    handlePoseDetected f g pose now = (g, false) := by
  simp [handlePoseDetected, h]

theorem hpd_cooldown (f : GateFlags) (g : GateState) (pose : Pose) (now : Nat)
    (h1 : (!f.autoCapture || !f.hasVideo || f.isCapturing || f.countdownActive) = false)
    (h2 : now - g.lastCaptureTime < 5000) :
    handlePoseDetected f g pose now = (g, false) := by
  simp [handlePoseDetected, h1, h2]

theorem hpd_start (f : GateFlags) (g : GateState) (pose : Pose) (now : Nat)
    (h1 : (!f.autoCapture || !f.hasVideo || f.isCapturing || f.countdownActive) = false)
    (h2 : ¬ now - g.lastCaptureTime < 5000)
    (h3 : isGoodPose pose = true) (h4 : g.wasCorrectPose = false) :
    handlePoseDetected f g pose now =
      ({ g with poseStableTime := now, wasCorrectPose := true }, false) := by
  simp [handlePoseDetected, h1, h2, h3, h4]

theorem hpd_hold (f : GateFlags) (g : GateState) (pose : Pose) (now : Nat)
    (h1 : (!f.autoCapture || !f.hasVideo || f.isCapturing || f.countdownActive) = false)
    (h2 : ¬ now - g.lastCaptureTime < 5000)
    (h3 : isGoodPose pose = true) (h4 : g.wasCorrectPose = true)
    (h5 : ¬ 2000 < now - g.poseStableTime) :
    handlePoseDetected f g pose now = (g, false) := by
  simp [handlePoseDetected, h1, h2, h3, h4, h5]

theorem hpd_fire (f : GateFlags) (g : GateState) (pose : Pose) (now : Nat)
    (h1 : (!f.autoCapture || !f.hasVideo || f.isCapturing || f.countdownActive) = false)
    (h2 : ¬ now - g.lastCaptureTime < 5000)
    (h3 : isGoodPose pose = true) (h4 : g.wasCorrectPose = true)
    (h5 : 2000 < now - g.poseStableTime) :
    handlePoseDetected f g pose now = ({ g with wasCorrectPose := false }, true) := by
  simp [handlePoseDetected, h1, h2, h3, h4, h5]

theorem hpd_reset (f : GateFlags) (g : GateState) (pose : Pose) (now : Nat)
    (h1 : (!f.autoCapture || !f.hasVideo || f.isCapturing || f.countdownActive) = false)
    (h2 : ¬ now - g.lastCaptureTime < 5000)
    (h3 : isGoodPose pose = false) :
    handlePoseDetected f g pose now = ({ g with wasCorrectPose := false }, false) := by
  simp [handlePoseDetected, h1, h2, h3]

theorem hpd_lastCaptureTime (f : GateFlags) (g : GateState) (pose : Pose) (now : Nat) :
    (handlePoseDetected f g pose now).1.lastCaptureTime = g.lastCaptureTime := by
  unfold handlePoseDetected
  repeat' split
  all_goals rfl

theorem runSys_cons (s : SysState) (e : Event) (es : List Event) :
    runSys s (e :: es) =
      ((runSys (sysStep s e).1 es).1,
       (if (sysStep s e).2 then [eventTime e] else []) ++ (runSys (sysStep s e).1 es).2) :=
  rfl

theorem c2_mono_of_fields (s s' : SysState)
    (hca : s'.countdownActive = s.countdownActive)
    (hcs : s'.countdownStart = s.countdownStart)
    (hwc : s'.gate.wasCorrectPose = s.gate.wasCorrectPose)
    (hpst : s'.gate.poseStableTime = s.gate.poseStableTime)
    (hclk : s.clock ≤ s'.clock) :
    lowBound s ≤ lowBound s' := by
  unfold lowBound
  rw [hca, hcs, hwc, hpst]
  split_ifs <;> omega

theorem sysInv_of_fields (s s' : SysState)
    (hca : s'.countdownActive = s.countdownActive)
    (hcount : s'.count = s.count)
    (hwc : s'.gate.wasCorrectPose = s.gate.wasCorrectPose)
    (hpst : s'.gate.poseStableTime = s.gate.poseStableTime)
    (hclk : s.clock ≤ s'.clock)
    (h : sysInv s) : sysInv s' := by
  obtain ⟨h1, h2, h3⟩ := h
  refine ⟨fun hact => ?_, fun hact => ?_, ?_⟩
  · rw [hca] at hact
    rw [hcount, hwc]
    exact h1 hact
  · rw [hca] at hact
    rw [hcount]
    exact h2 hact
  · rw [hpst]
    exact le_trans h3 hclk

theorem c2_no_trigger_step (s s' : SysState) (e : Event) (es : List Event)
    (hstep : sysStep s e = (s', false))
    (hih : (∀ t ∈ (runSys s' es).2, lowBound s' ≤ t) ∧
      List.Pairwise (fun a b => a + 5000 ≤ b) (runSys s' es).2)
    (hmono : lowBound s ≤ lowBound s') :
    (∀ t ∈ (runSys s (e :: es)).2, lowBound s ≤ t) ∧
    List.Pairwise (fun a b => a + 5000 ≤ b) (runSys s (e :: es)).2 := by
  have h2 : runSys s (e :: es) = ((runSys s' es).1, (runSys s' es).2) := by
    rw [runSys_cons, hstep]
    simp
  rw [h2]
  exact ⟨fun t ht => le_trans hmono (hih.1 t ht), hih.2⟩

theorem c2_trigger_step (s s' : SysState) (p : Pose) (now : Nat) (es : List Event)
    (hstep : sysStep s (.pose p now) = (s', true))
    (hih : (∀ t ∈ (runSys s' es).2, lowBound s' ≤ t) ∧
      List.Pairwise (fun a b => a + 5000 ≤ b) (runSys s' es).2)
    (hhead : lowBound s ≤ now)
    (hbound : now + 5001 ≤ lowBound s') :
    (∀ t ∈ (runSys s (.pose p now :: es)).2, lowBound s ≤ t) ∧
    List.Pairwise (fun a b => a + 5000 ≤ b) (runSys s (.pose p now :: es)).2 := by
  have h2 : runSys s (.pose p now :: es) =
      ((runSys s' es).1, now :: (runSys s' es).2) := by
    rw [runSys_cons, hstep]
    simp [eventTime]
  rw [h2]
  constructor
  · intro t ht
    rcases List.mem_cons.mp ht with rfl | ht
    · exact hhead
    · have := hih.1 t ht
      omega
  · refine List.Pairwise.cons (fun b hb => ?_) hih.2
    have := hih.1 b hb
    omega

theorem manualCapture_fields (s : SysState) (now : Nat) (ok : Bool) :
    (handleManualCapture s now ok).gate = s.gate ∧
    (handleManualCapture s now ok).countdownActive = s.countdownActive ∧
    (handleManualCapture s now ok).count = s.count ∧
    (handleManualCapture s now ok).countdownStart = s.countdownStart ∧
    (handleManualCapture s now ok).clock = now := by
  unfold handleManualCapture
  repeat' split
  all_goals exact ⟨rfl, rfl, rfl, rfl, rfl⟩

theorem countdownComplete_fields (s : SysState) (now : Nat) (ok : Bool) :
    (handleCountdownComplete s now ok).countdownActive = false ∧
    (handleCountdownComplete s now ok).count = s.count ∧
    (handleCountdownComplete s now ok).gate.wasCorrectPose = s.gate.wasCorrectPose ∧
    (handleCountdownComplete s now ok).gate.poseStableTime = s.gate.poseStableTime ∧
    (handleCountdownComplete s now ok).clock = now ∧
    (handleCountdownComplete s now ok).countdownStart = s.countdownStart := by
  unfold handleCountdownComplete
  dsimp only
  split_ifs <;> exact ⟨rfl, rfl, rfl, rfl, rfl, rfl⟩

theorem c2_aux (es : List Event) : ∀ (s : SysState), validB s es = true → sysInv s →
    (∀ t ∈ (runSys s es).2, lowBound s ≤ t) ∧
    List.Pairwise (fun a b => a + 5000 ≤ b) (runSys s es).2 := by
  induction es with
  | nil =>
    intro s _ _
    refine ⟨fun t ht => ?_, by simp [runSys]⟩
    simp [runSys] at ht
  | cons e es ih =>
    intro s hv hinv
    obtain ⟨hinv1, hinv2, hinv3⟩ := hinv
    rcases e with ⟨p, now⟩ | ⟨now, ok⟩ | ⟨now, ok⟩ | now | ⟨now, b⟩
    · -- pose sample
      have hv' : (decide (s.clock ≤ now) && true &&
          validB (sysStep s (.pose p now)).1 es) = true := hv
      rw [Bool.and_eq_true, Bool.and_eq_true, decide_eq_true_eq] at hv'
      obtain ⟨⟨hclock, -⟩, hvrest⟩ := hv'
      cases hF : (!s.autoCapture || !s.hasVideo || s.isCapturing || s.countdownActive) with
      | true =>
        have hr := hpd_guard
          ⟨s.autoCapture, s.hasVideo, s.isCapturing, s.countdownActive⟩ s.gate p now hF
        have hstep : sysStep s (.pose p now) =
            ({ s with gate := s.gate, clock := now }, false) := by
          simp [sysStep, hr]
        rw [hstep] at hvrest
        exact c2_no_trigger_step s _ _ es hstep
          (ih _ hvrest (sysInv_of_fields s _ rfl rfl rfl rfl hclock ⟨hinv1, hinv2, hinv3⟩))
          (c2_mono_of_fields s _ rfl rfl rfl rfl hclock)
      | false =>
        have hca : s.countdownActive = false := by
          have h := hF
          simp at h
          exact h.2
        by_cases hcd : now - s.gate.lastCaptureTime < 5000
        · have hr := hpd_cooldown
            ⟨s.autoCapture, s.hasVideo, s.isCapturing, s.countdownActive⟩ s.gate p now hF hcd
          have hstep : sysStep s (.pose p now) =
              ({ s with gate := s.gate, clock := now }, false) := by
            simp [sysStep, hr]
          rw [hstep] at hvrest
          exact c2_no_trigger_step s _ _ es hstep
            (ih _ hvrest (sysInv_of_fields s _ rfl rfl rfl rfl hclock ⟨hinv1, hinv2, hinv3⟩))
            (c2_mono_of_fields s _ rfl rfl rfl rfl hclock)
        · cases hgood : isGoodPose p with
          | false =>
            have hr := hpd_reset
              ⟨s.autoCapture, s.hasVideo, s.isCapturing, s.countdownActive⟩ s.gate p now hF hcd hgood
            have hstep : sysStep s (.pose p now) = (({ s with gate := { s.gate with wasCorrectPose := false }, clock := now } : SysState), false) := by
              simp [sysStep, hr]
            rw [hstep] at hvrest
            refine c2_no_trigger_step s _ _ es hstep (ih _ hvrest ?_) ?_
            · refine ⟨fun hact => ?_, fun _ => hinv2 hca, ?_⟩
              · dsimp at hact
                rw [hca] at hact
                cases hact
              · dsimp
                exact le_trans hinv3 hclock
            · have hls' : lowBound ({ s with gate := { s.gate with wasCorrectPose := false }, clock := now } : SysState) = now + 2001 := by
                simp [lowBound, hca]
              rw [hls']
              have hls : lowBound s =
                  (if s.gate.wasCorrectPose then s.gate.poseStableTime + 2001
                   else s.clock + 2001) := by
                simp [lowBound, hca]
              rw [hls]
              split_ifs <;> omega
          | true =>
            cases hwc : s.gate.wasCorrectPose with
            | false =>
              have hr := hpd_start
                ⟨s.autoCapture, s.hasVideo, s.isCapturing, s.countdownActive⟩ s.gate p now hF hcd hgood hwc
              have hstep : sysStep s (.pose p now) = (({ s with gate := { s.gate with poseStableTime := now, wasCorrectPose := true }, clock := now } : SysState), false) := by
                simp [sysStep, hr]
              rw [hstep] at hvrest
              refine c2_no_trigger_step s _ _ es hstep (ih _ hvrest ?_) ?_
              · refine ⟨fun hact => ?_, fun _ => hinv2 hca, ?_⟩
                · dsimp at hact
                  rw [hca] at hact
                  cases hact
                · dsimp
                  exact le_refl now
              · have hls : lowBound s = s.clock + 2001 := by
                  simp [lowBound, hca, hwc]
                have hls' : lowBound ({ s with gate := { s.gate with poseStableTime := now, wasCorrectPose := true }, clock := now } : SysState) = now + 2001 := by
                  simp [lowBound, hca]
                rw [hls, hls']
                omega
            | true =>
              by_cases hfire : 2000 < now - s.gate.poseStableTime
              · have hr := hpd_fire
                  ⟨s.autoCapture, s.hasVideo, s.isCapturing, s.countdownActive⟩ s.gate p now hF hcd hgood hwc hfire
                have hstep : sysStep s (.pose p now) = (({ s with gate := { s.gate with wasCorrectPose := false }, countdownActive := true, countdownStart := now, clock := now } : SysState), true) := by
                  simp [sysStep, hr]
                rw [hstep] at hvrest
                refine c2_trigger_step s _ p now es hstep (ih _ hvrest ?_) ?_ ?_
                · refine ⟨fun _ => ?_, fun hact => ?_, ?_⟩
                  · dsimp
                    have h3 := hinv2 hca
                    exact ⟨by omega, by omega, rfl⟩
                  · dsimp at hact
                    cases hact
                  · dsimp
                    exact le_trans hinv3 hclock
                · have hls : lowBound s = s.gate.poseStableTime + 2001 := by
                    simp [lowBound, hca, hwc]
                  rw [hls]
                  omega
                · have hls' : lowBound ({ s with gate := { s.gate with wasCorrectPose := false }, countdownActive := true, countdownStart := now, clock := now } : SysState) = now + 5001 := by
                    simp [lowBound]
                  rw [hls']
              · have hr := hpd_hold
                  ⟨s.autoCapture, s.hasVideo, s.isCapturing, s.countdownActive⟩ s.gate p now hF hcd hgood hwc hfire
                have hstep : sysStep s (.pose p now) =
                    ({ s with gate := s.gate, clock := now }, false) := by
                  simp [sysStep, hr]
                rw [hstep] at hvrest
                exact c2_no_trigger_step s _ _ es hstep
                  (ih _ hvrest (sysInv_of_fields s _ rfl rfl rfl rfl hclock ⟨hinv1, hinv2, hinv3⟩))
                  (c2_mono_of_fields s _ rfl rfl rfl rfl hclock)
    · -- countdown tick
      have hv' : (decide (s.clock ≤ now) &&
          (!s.countdownActive || decide (s.countdownStart + 1000 * (4 - s.count) ≤ now)) &&
          validB (sysStep s (.tick now ok)).1 es) = true := hv
      rw [Bool.and_eq_true, Bool.and_eq_true, decide_eq_true_eq] at hv'
      obtain ⟨⟨hclock, hgd⟩, hvrest⟩ := hv'
      cases hact : s.countdownActive with
      | false =>
        have hstep : sysStep s (.tick now ok) = ({ s with clock := now }, false) := by
          simp [sysStep, handleCountdownTick, hact]
        rw [hstep] at hvrest
        exact c2_no_trigger_step s _ _ es hstep
          (ih _ hvrest (sysInv_of_fields s _ rfl rfl rfl rfl hclock ⟨hinv1, hinv2, hinv3⟩))
          (c2_mono_of_fields s _ rfl rfl rfl rfl hclock)
      | true =>
        have hspace : s.countdownStart + 1000 * (4 - s.count) ≤ now := by
          rw [hact] at hgd
          simpa using hgd
        obtain ⟨hc1, hc3, hwcf⟩ := hinv1 hact
        by_cases hcnt : s.count ≤ 1
        · have hstep : sysStep s (.tick now ok) =
              (handleCountdownComplete { s with count := 3 } now ok, false) := by
            simp [sysStep, handleCountdownTick, hact, hcnt]
          obtain ⟨hfa, hfcount, hfwc, hfpst, hfclk, hfcs⟩ :=
            countdownComplete_fields { s with count := 3 } now ok
          rw [hstep] at hvrest
          refine c2_no_trigger_step s _ _ es hstep (ih _ hvrest ?_) ?_
          · refine ⟨fun hact' => ?_, fun _ => ?_, ?_⟩
            · rw [hfa] at hact'
              cases hact'
            · rw [hfcount]
            · rw [hfpst, hfclk]
              dsimp
              exact le_trans hinv3 hclock
          · have hls : lowBound s = s.countdownStart + 5001 := by
              simp [lowBound, hact]
            have hls' : lowBound (handleCountdownComplete { s with count := 3 } now ok) =
                now + 2001 := by
              rw [lowBound, hfa]
              rw [if_neg (by simp)]
              rw [hfwc]
              dsimp
              rw [hwcf, if_neg (by simp), hfclk]
            rw [hls, hls']
            have hc : s.count = 1 := by omega
            rw [hc] at hspace
            norm_num at hspace
            omega
        · have hstep : sysStep s (.tick now ok) =
              ({ s with count := s.count - 1, clock := now }, false) := by
            simp [sysStep, handleCountdownTick, hact, hcnt]
          rw [hstep] at hvrest
          refine c2_no_trigger_step s _ _ es hstep (ih _ hvrest ?_) ?_
          · refine ⟨fun _ => ⟨by dsimp; omega, by dsimp; omega, hwcf⟩, fun h' => ?_, ?_⟩
            · dsimp at h'
              rw [hact] at h'
              cases h'
            · dsimp
              exact le_trans hinv3 hclock
          · exact c2_mono_of_fields s _ rfl rfl rfl rfl hclock
    · -- manual capture
      have hv' : (decide (s.clock ≤ now) && true &&
          validB (sysStep s (.manual now ok)).1 es) = true := hv
      rw [Bool.and_eq_true, Bool.and_eq_true, decide_eq_true_eq] at hv'
      obtain ⟨⟨hclock, -⟩, hvrest⟩ := hv'
      obtain ⟨hmg, hmca, hmcount, hmcs, hmclk⟩ := manualCapture_fields s now ok
      have hstep : sysStep s (.manual now ok) = (handleManualCapture s now ok, false) := rfl
      rw [hstep] at hvrest
      refine c2_no_trigger_step s _ _ es hstep (ih _ hvrest ?_) ?_
      · exact sysInv_of_fields s _ hmca hmcount (by rw [hmg]) (by rw [hmg])
          (by rw [hmclk]; exact hclock) ⟨hinv1, hinv2, hinv3⟩
      · exact c2_mono_of_fields s _ hmca hmcs (by rw [hmg]) (by rw [hmg])
          (by rw [hmclk]; exact hclock)
    · -- video ready
      have hv' : (decide (s.clock ≤ now) && true &&
          validB (sysStep s (.videoReady now)).1 es) = true := hv
      rw [Bool.and_eq_true, Bool.and_eq_true, decide_eq_true_eq] at hv'
      obtain ⟨⟨hclock, -⟩, hvrest⟩ := hv'
      have hstep : sysStep s (.videoReady now) =
          ({ s with hasVideo := true, clock := now }, false) := rfl
      rw [hstep] at hvrest
      exact c2_no_trigger_step s _ _ es hstep
        (ih _ hvrest (sysInv_of_fields s _ rfl rfl rfl rfl hclock ⟨hinv1, hinv2, hinv3⟩))
        (c2_mono_of_fields s _ rfl rfl rfl rfl hclock)
    · -- auto-capture checkbox
      have hv' : (decide (s.clock ≤ now) && true &&
          validB (sysStep s (.setAuto now b)).1 es) = true := hv
      rw [Bool.and_eq_true, Bool.and_eq_true, decide_eq_true_eq] at hv'
      obtain ⟨⟨hclock, -⟩, hvrest⟩ := hv'
      have hstep : sysStep s (.setAuto now b) =
          ({ s with autoCapture := b, clock := now }, false) := rfl
      rw [hstep] at hvrest
      exact c2_no_trigger_step s _ _ es hstep
        (ih _ hvrest (sysInv_of_fields s _ rfl rfl rfl rfl hclock ⟨hinv1, hinv2, hinv3⟩))
        (c2_mono_of_fields s _ rfl rfl rfl rfl hclock)

/-- Claim C2: over any chronological event trace with countdown ticks at
least 1000 ms apart, every pair of distinct auto-capture triggers emitted
from the initial app state is at least 5000 ms apart — whatever the pose
sampling rate (pose events are unconstrained). -/
theorem autoTriggers_at_least_5000_apart (es : List Event)
    (h : validB initialSysState es = true) :
    List.Pairwise (fun a b => a + 5000 ≤ b) (runSys initialSysState es).2 :=
  (c2_aux es initialSysState h
    ⟨fun hact => by simp [initialSysState] at hact, fun _ => rfl, le_refl 0⟩).2

/-- Witness for C2: a well-timed trace with two triggers, 10001 ms apart. -/
theorem autoTriggers_at_least_5000_apart_witness :
    (runSys initialSysState autoTwoTriggerTrace).2 = [7001, 17002] ∧
    List.Pairwise (fun a b => a + 5000 ≤ b)
      (runSys initialSysState autoTwoTriggerTrace).2 :=
  ⟨by with_unfolding_all rfl,
   autoTriggers_at_least_5000_apart autoTwoTriggerTrace (by with_unfolding_all rfl)⟩

theorem runGate_cons (g : GateState) (z : Sample) (zs : List Sample) :
    runGate g (z :: zs) =
      ((runGate (handlePoseDetected z.flags g z.pose z.now).1 zs).1,
       (if (handlePoseDetected z.flags g z.pose z.now).2 then [z.now] else []) ++
         (runGate (handlePoseDetected z.flags g z.pose z.now).1 zs).2) :=
  rfl

theorem runGate_cons_eq (g : GateState) (z : Sample) (zs : List Sample)
    (g' : GateState) (b : Bool)
    (hr : handlePoseDetected z.flags g z.pose z.now = (g', b)) :
    runGate g (z :: zs) =
      ((runGate g' zs).1, (if b then [z.now] else []) ++ (runGate g' zs).2) := by
  rw [runGate_cons, hr]

theorem bool_five_last_false (a b c d e : Bool)
    (h : (a || b || c || d || e) = false) :
    (a || b || c || d) = false ∧ e = false := by
  revert h
  cases a <;> cases b <;> cases c <;> cases d <;> cases e <;> simp

theorem bool_five_last_true (a b c d e : Bool)
    (h : (a || b || c || d || e) = true)
    (hfl : (a || b || c || d) = false) : e = true := by
  revert h hfl
  cases a <;> cases b <;> cases c <;> cases d <;> cases e <;> simp

theorem not_ignored_parts (g : GateState) (z : Sample)
    (h : sampleIgnored g.lastCaptureTime z = false) :
    (!z.flags.autoCapture || !z.flags.hasVideo || z.flags.isCapturing ||
      z.flags.countdownActive) = false ∧
    ¬ z.now - g.lastCaptureTime < 5000 := by
  rw [sampleIgnored] at h
  obtain ⟨h1, h2⟩ := bool_five_last_false _ _ _ _ _ h
  exact ⟨h1, by simpa using h2⟩

theorem hpd_of_ignored (g : GateState) (z : Sample)
    (h : sampleIgnored g.lastCaptureTime z = true) :
    handlePoseDetected z.flags g z.pose z.now = (g, false) := by
  cases hfl : (!z.flags.autoCapture || !z.flags.hasVideo || z.flags.isCapturing ||
      z.flags.countdownActive) with
  | true => exact hpd_guard _ _ _ _ hfl
  | false =>
    rw [sampleIgnored] at h
    have hcd := bool_five_last_true _ _ _ _ _ h hfl
    exact hpd_cooldown _ _ _ _ hfl (by simpa using hcd)

theorem c1_aux (ys : List Sample) : ∀ (g : GateState) (t : Nat),
    t ∈ (runGate g ys).2 →
    MidHoldFires g t ys ∨
    ∃ pre suffix, ys = pre ++ suffix ∧
      (runGate g pre).1.wasCorrectPose = false ∧
      JustifiedSuffix (runGate g pre).1 t suffix := by
  induction ys with
  | nil =>
    intro g t ht
    simp [runGate] at ht
  | cons z zs ih =>
    intro g t ht
    cases hig : sampleIgnored g.lastCaptureTime z with
    | true =>
      -- the gate ignores z: state unchanged, no trigger
      have hr := hpd_of_ignored g z hig
      rw [runGate_cons_eq g z zs g false hr] at ht
      simp only [List.nil_append, if_neg (by simp : ¬ (false : Bool) = true)] at ht
      rcases ih g t ht with hmh | ⟨pre, suffix, hdec, hpre, hJ⟩
      · obtain ⟨mid, y, rest, hzs, hwc1, hall, hmid, higy, hgy, hty, hfi, haft1, haft2⟩ := hmh
        refine Or.inl ⟨z :: mid, y, rest, by rw [hzs, List.cons_append], hwc1, ?_, ?_, higy, hgy, hty, hfi, ?_, ?_⟩
        · intro w hw hiw
          rcases List.mem_cons.mp hw with rfl | hw
          · rw [hig] at hiw
            cases hiw
          · exact hall w hw hiw
        · rw [runGate_cons_eq g z mid g false hr]
          simpa using hmid
        · rw [List.cons_append, runGate_cons_eq g z (mid ++ [y]) g false hr]
          exact haft1
        · rw [List.cons_append, runGate_cons_eq g z (mid ++ [y]) g false hr]
          simpa using haft2
      · have hst : (runGate g (z :: pre)).1 = (runGate g pre).1 := by
          rw [runGate_cons_eq g z pre g false hr]
        refine Or.inr ⟨z :: pre, suffix, ?_, ?_, ?_⟩
        · rw [List.cons_append, ← hdec]
        · rw [hst]
          exact hpre
        · rw [hst]
          exact hJ
    | false =>
      obtain ⟨hF, hcd⟩ := not_ignored_parts g z hig
      cases hgood : isGoodPose z.pose with
      | false =>
        -- incorrect sample: reset
        have hr := hpd_reset z.flags g z.pose z.now hF hcd hgood
        rw [runGate_cons_eq g z zs _ false hr] at ht
        simp only [List.nil_append, if_neg (by simp : ¬ (false : Bool) = true)] at ht
        rcases ih _ t ht with hmh | ⟨pre, suffix, hdec, hpre, hJ⟩
        · obtain ⟨-, -, -, -, hwc1, -⟩ := hmh
          simp at hwc1
        · have hst : (runGate g (z :: pre)).1 =
              (runGate { g with wasCorrectPose := false } pre).1 := by
            rw [runGate_cons_eq g z pre _ false hr]
          refine Or.inr ⟨z :: pre, suffix, ?_, ?_, ?_⟩
          · rw [List.cons_append, ← hdec]
          · rw [hst]
            exact hpre
          · rw [hst]
            exact hJ
      | true =>
        cases hwc : g.wasCorrectPose with
        | false =>
          -- correct sample from a non-stabilizing state: the clock starts here
          have hr := hpd_start z.flags g z.pose z.now hF hcd hgood hwc
          rw [runGate_cons_eq g z zs _ false hr] at ht
          simp only [List.nil_append, if_neg (by simp : ¬ (false : Bool) = true)] at ht
          rcases ih _ t ht with hmh | ⟨pre, suffix, hdec, hpre, hJ⟩
          · obtain ⟨mid, y, rest, hzs, -, hall, hmid, higy, hgy, hty, hfi, haft1, haft2⟩ := hmh
            refine Or.inr ⟨[], z :: zs, rfl, hwc, ?_⟩
            show JustifiedSuffix g t (z :: zs)
            refine ⟨z, mid, y, rest, by rw [hzs], hwc, hig, hgood, hall, higy, hgy,
              hty, hfi, ?_, ?_, ?_⟩
            · rw [runGate_cons_eq g z mid _ false hr]
              simpa using hmid
            · rw [runGate_cons_eq g z (mid ++ [y]) _ false hr]
              exact haft1
            · rw [runGate_cons_eq g z (mid ++ [y]) _ false hr]
              simpa using haft2
          · have hst : (runGate g (z :: pre)).1 =
                (runGate { g with poseStableTime := z.now, wasCorrectPose := true } pre).1 := by
              rw [runGate_cons_eq g z pre _ false hr]
            refine Or.inr ⟨z :: pre, suffix, ?_, ?_, ?_⟩
            · rw [List.cons_append, ← hdec]
            · rw [hst]
              exact hpre
            · rw [hst]
              exact hJ
        | true =>
          by_cases hfire : 2000 < z.now - g.poseStableTime
          · -- the hold has lasted long enough: z fires the trigger
            have hr := hpd_fire z.flags g z.pose z.now hF hcd hgood hwc hfire
            rw [runGate_cons_eq g z zs _ true hr] at ht
            simp only [if_pos rfl, List.singleton_append] at ht
            rcases List.mem_cons.mp ht with rfl | ht
            · refine Or.inl ⟨[], z, zs, rfl, hwc, ?_, by simp [runGate], hig, hgood,
                rfl, hfire, ?_, ?_⟩
              · intro w hw
                simp at hw
              · rw [List.nil_append, runGate_cons_eq g z [] _ true hr]
                simp [runGate]
              · rw [List.nil_append, runGate_cons_eq g z [] _ true hr]
                simp [runGate]
            · rcases ih _ t ht with hmh | ⟨pre, suffix, hdec, hpre, hJ⟩
              · obtain ⟨-, -, -, -, hwc1, -⟩ := hmh
                simp at hwc1
              · have hst : (runGate g (z :: pre)).1 =
                    (runGate { g with wasCorrectPose := false } pre).1 := by
                  rw [runGate_cons_eq g z pre _ true hr]
                refine Or.inr ⟨z :: pre, suffix, ?_, ?_, ?_⟩
                · rw [List.cons_append, ← hdec]
                · rw [hst]
                  exact hpre
                · rw [hst]
                  exact hJ
          · -- still stabilizing: no state change, no trigger
            have hr := hpd_hold z.flags g z.pose z.now hF hcd hgood hwc hfire
            rw [runGate_cons_eq g z zs g false hr] at ht
            simp only [List.nil_append, if_neg (by simp : ¬ (false : Bool) = true)] at ht
            rcases ih g t ht with hmh | ⟨pre, suffix, hdec, hpre, hJ⟩
            · obtain ⟨mid, y, rest, hzs, hwc1, hall, hmid, higy, hgy, hty, hfi, haft1, haft2⟩ := hmh
              refine Or.inl ⟨z :: mid, y, rest, by rw [hzs, List.cons_append], hwc1,
                ?_, ?_, higy, hgy, hty, hfi, ?_, ?_⟩
              · intro w hw hiw
                rcases List.mem_cons.mp hw with rfl | hw
                · exact hgood
                · exact hall w hw hiw
              · rw [runGate_cons_eq g z mid g false hr]
                simpa using hmid
              · rw [List.cons_append, runGate_cons_eq g z (mid ++ [y]) g false hr]
                exact haft1
              · rw [List.cons_append, runGate_cons_eq g z (mid ++ [y]) g false hr]
                simpa using haft2
            · have hst : (runGate g (z :: pre)).1 = (runGate g pre).1 := by
                rw [runGate_cons_eq g z pre g false hr]
              refine Or.inr ⟨z :: pre, suffix, ?_, ?_, ?_⟩
              · rw [List.cons_append, ← hdec]
              · rw [hst]
                exact hpre
              · rw [hst]
                exact hJ

/-- Claim C1: starting from a non-stabilizing gate, every emitted trigger is
justified by a hold: some processed correct sample `x` arrived with the gate
non-stabilizing (the first correct sample after the last reset, starting the
clock at `x.now`), every sample the gate processed since then was correct,
the triggering sample came more than 2000 ms after `x.now`, no other trigger
was emitted during the hold, and immediately after the trigger the gate is
non-stabilizing again (so another full hold is needed before the next
trigger).  Moreover any single processed incorrect sample resets the
stability state. -/
theorem gateTrigger_only_after_stable_hold (g : GateState) (xs : List Sample)
    (t : Nat) (h0 : g.wasCorrectPose = false) (ht : t ∈ (runGate g xs).2) :
    (∃ pre suffix, xs = pre ++ suffix ∧
      (runGate g pre).1.wasCorrectPose = false ∧
      JustifiedSuffix (runGate g pre).1 t suffix) ∧
    (∀ (g' : GateState) (z : Sample),
      sampleIgnored g'.lastCaptureTime z = false → isGoodPose z.pose = false →
      handlePoseDetected z.flags g' z.pose z.now =
        ({ g' with wasCorrectPose := false }, false)) := by
  refine ⟨?_, fun g' z hig hbad => ?_⟩
  · rcases c1_aux xs g t ht with hmh | hfresh
    · obtain ⟨-, -, -, -, hwc1, -⟩ := hmh
      rw [h0] at hwc1
      cases hwc1
    · exact hfresh
  · obtain ⟨hF, hcd⟩ := not_ignored_parts g' z hig
    exact hpd_reset z.flags g' z.pose z.now hF hcd hbad

/-- Witness for C1: on two good samples 2001 ms apart from the initial gate
state, the trigger at 7001 is justified by the hold that started at 5000. -/
theorem gateTrigger_only_after_stable_hold_witness :
    ∃ pre suffix, gateSampleTrace = pre ++ suffix ∧
      (runGate ⟨0, 0, false⟩ pre).1.wasCorrectPose = false ∧
      JustifiedSuffix (runGate ⟨0, 0, false⟩ pre).1 7001 suffix :=
  (gateTrigger_only_after_stable_hold ⟨0, 0, false⟩ gateSampleTrace 7001 rfl
    (by with_unfolding_all decide)).1

end PoseCapture
